import Mathlib

/-!
The debug context of `glfq`: `GlfQGLPlatformDebugContext`.

A shallow embedding of `pxr/imaging/lib/glfq/glPlatformDebugContext.cpp`.

The C++ code is a sequence of calls into the environment (`TfGetenvBool`), the
diagnostic facility (`TF_VERIFY`, `TF_WARN`) and GLX.  Those effects are made
explicit:

* pointers (`Display*`, `GLXContext`, `GLXFBConfig`, `XVisualInfo*`) and XIDs
  (`GLXDrawable`) are natural numbers, `0` being `NULL` / `None`;
* `World` holds what GLX calls the thread's current display, drawable and
  context, the list of platform calls issued so far and the diagnostics posted
  so far; a C++ function becomes a function `World → result × World`;
* `GLX` holds the answers of the GLX implementation, a parameter of the model;
* `Proc` adds the process environment and the two function-local statics.
-/

namespace Glfq

/-! ## Pointers and constants -/

/-- The C type `Display *`; `0` is `NULL`. -/
abbrev Display := Nat
/-- The C type `GLXContext` (a pointer); `0` is `NULL`. -/
abbrev GLXContext := Nat
/-- The C type `GLXFBConfig` (a pointer). -/
abbrev GLXFBConfig := Nat
/-- The C type `GLXDrawable` (an XID); `0` is `None`. -/
abbrev GLXDrawable := Nat
/-- The C type `XVisualInfo *`. -/
abbrev XVisualInfo := Nat
/-- The C type `void *` as returned by the visual selector; `0` is `nullptr`. -/
abbrev VoidPtr := Nat

/-- The null pointer `NULL`. -/
def NULL : Nat := 0

/-- The constant `None` of `<X11/X.h>`. -/
def None : Int := 0
/-- The constant `GLX_FBCONFIG_ID` of `<GL/glx.h>`. -/
def GLX_FBCONFIG_ID : Int := 0x8013
/-- The constant `GLX_SCREEN` of `<GL/glx.h>`. -/
def GLX_SCREEN : Int := 0x800C
/-- The constant `GLX_CONTEXT_MAJOR_VERSION_ARB` of `<GL/glxext.h>`. -/
def GLX_CONTEXT_MAJOR_VERSION_ARB : Int := 0x2091
/-- The constant `GLX_CONTEXT_MINOR_VERSION_ARB` of `<GL/glxext.h>`. -/
def GLX_CONTEXT_MINOR_VERSION_ARB : Int := 0x2092
/-- The constant `GLX_CONTEXT_FLAGS_ARB` of `<GL/glxext.h>`. -/
def GLX_CONTEXT_FLAGS_ARB : Int := 0x2094
/-- The constant `GLX_CONTEXT_PROFILE_MASK_ARB` of `<GL/glxext.h>`. -/
def GLX_CONTEXT_PROFILE_MASK_ARB : Int := 0x9126
/-- The constant `GLX_CONTEXT_DEBUG_BIT_ARB` of `<GL/glxext.h>`. -/
def GLX_CONTEXT_DEBUG_BIT_ARB : Int := 0x0001
/-- The constant `GLX_CONTEXT_CORE_PROFILE_BIT_ARB` of `<GL/glxext.h>`. -/
def GLX_CONTEXT_CORE_PROFILE_BIT_ARB : Int := 0x0001
/-- The constant `GLX_CONTEXT_COMPATIBILITY_PROFILE_BIT_ARB` of `<GL/glxext.h>`. -/
def GLX_CONTEXT_COMPATIBILITY_PROFILE_BIT_ARB : Int := 0x0002

/-! ## The world outside the file -/

/-- One call into the platform layer.  The two context-creating calls carry
the context they returned as their last field. -/
inductive PlatformCall where
  | getCurrentDisplay
  | getCurrentContext
  | getCurrentDrawable
  | queryContext (dpy : Display) (ctx : GLXContext) (attr : Int)
  | chooseFBConfig (dpy : Display) (screen : Int) (attribList : List Int)
  | getProcAddressARB (procName : String)
  | createContextAttribsARB (dpy : Display) (config : GLXFBConfig)
      (shareContext : GLXContext) (direct : Bool) (attribList : List Int)
      (ret : GLXContext)
  | getVisualFromFBConfig (dpy : Display) (config : GLXFBConfig)
  | createContext (dpy : Display) (vis : XVisualInfo)
      (shareList : GLXContext) (direct : Bool) (ret : GLXContext)
  | destroyContext (dpy : Display) (ctx : GLXContext)
  | makeCurrent (dpy : Display) (drawable : GLXDrawable) (ctx : GLXContext)
  | selectCoreProfileMacVisual
  deriving DecidableEq, Repr

/-- A diagnostic posted through `pxr/base/tf/diagnostic.h`. -/
inductive Diag where
  | verifyFailed (expr : String)
  | warn (msg : String)
  deriving DecidableEq, Repr

/-- The calling thread's current GLX binding, the platform calls issued so far
(oldest first) and the diagnostics posted so far (oldest first). -/
structure World where
  curDisplay : Display
  curDrawable : GLXDrawable
  curContext : GLXContext
  calls : List PlatformCall
  diags : List Diag
  deriving DecidableEq, Repr

/-- The type `PFNGLXCREATECONTEXTATTRIBSARBPROC`: what a resolved
`glXCreateContextAttribsARB` returns for its arguments. -/
abbrev PFNGLXCREATECONTEXTATTRIBSARBPROC :=
  Display → GLXFBConfig → GLXContext → Bool → List Int → GLXContext

/-- The answers of the GLX implementation and of the Objective-C visual
selector, which this file only calls. -/
structure GLX where
  /-- For `glXQueryContext`: the value stored through the out-pointer, `none` when
  the call stores nothing (the source ignores the returned status). -/
  queryContext : Display → GLXContext → Int → Option Int
  /-- For `glXChooseFBConfig`: the returned array; its length is what the call
  stores in `*nelements` (an empty list is the `NULL` result). -/
  chooseFBConfig : Display → Int → List Int → List GLXFBConfig
  /-- For `glXGetProcAddressARB`: `none` is a null function pointer. -/
  getProcAddressARB : String → Option PFNGLXCREATECONTEXTATTRIBSARBPROC
  /-- For `glXGetVisualFromFBConfig`. -/
  getVisualFromFBConfig : Display → GLXFBConfig → XVisualInfo
  /-- For `glXCreateContext`. -/
  createContext : Display → XVisualInfo → GLXContext → Bool → GLXContext
  /-- For `glXMakeCurrent`: whether the call succeeds. -/
  makeCurrent : Display → GLXDrawable → GLXContext → Bool
  /-- For `GlfqSelectCoreProfileMacVisual` on Darwin (extern Objective-C). -/
  selectCoreProfileMacVisual : VoidPtr

/-- Record a platform call. -/
def World.call (w : World) (c : PlatformCall) : World :=
  { w with calls := w.calls ++ [c] }

/-- Post a diagnostic. -/
def World.post (w : World) (d : Diag) : World :=
  { w with diags := w.diags ++ [d] }

/-- The call `glXGetCurrentDisplay()`. -/
def glXGetCurrentDisplay (w : World) : Display × World :=
  (w.curDisplay, w.call .getCurrentDisplay)

/-- The call `glXGetCurrentContext()`. -/
def glXGetCurrentContext (w : World) : GLXContext × World :=
  (w.curContext, w.call .getCurrentContext)

/-- The call `glXGetCurrentDrawable()`. -/
def glXGetCurrentDrawable (w : World) : GLXDrawable × World :=
  (w.curDrawable, w.call .getCurrentDrawable)

/-- The call `glXQueryContext(dpy, ctx, attr, &value)`: `value` is the variable's
content before the call, the result its content after it. -/
def glXQueryContext (glx : GLX) (dpy : Display) (ctx : GLXContext)
    (attr : Int) (value : Int) (w : World) : Int × World :=
  ((glx.queryContext dpy ctx attr).getD value,
   w.call (.queryContext dpy ctx attr))

/-- The call `glXChooseFBConfig(dpy, screen, attribList, &nelements)`: the array and
the element count stored in `nelements`. -/
def glXChooseFBConfig (glx : GLX) (dpy : Display) (screen : Int)
    (attribList : List Int) (w : World) : (List GLXFBConfig × Int) × World :=
  let configs := glx.chooseFBConfig dpy screen attribList
  ((configs, (configs.length : Int)), w.call (.chooseFBConfig dpy screen attribList))

/-- The call `glXGetProcAddressARB(procName)`. -/
def glXGetProcAddressARB (glx : GLX) (procName : String) (w : World) :
    Option PFNGLXCREATECONTEXTATTRIBSARBPROC × World :=
  (glx.getProcAddressARB procName, w.call (.getProcAddressARB procName))

/-- A call through the resolved `glXCreateContextAttribsARB` pointer. -/
def callCreateContextAttribs (f : PFNGLXCREATECONTEXTATTRIBSARBPROC)
    (dpy : Display) (config : GLXFBConfig) (shareContext : GLXContext)
    (direct : Bool) (attribList : List Int) (w : World) : GLXContext × World :=
  let ret := f dpy config shareContext direct attribList
  (ret, w.call (.createContextAttribsARB dpy config shareContext direct attribList ret))

/-- The call `glXGetVisualFromFBConfig(dpy, config)`. -/
def glXGetVisualFromFBConfig (glx : GLX) (dpy : Display) (config : GLXFBConfig)
    (w : World) : XVisualInfo × World :=
  (glx.getVisualFromFBConfig dpy config, w.call (.getVisualFromFBConfig dpy config))

/-- The call `glXCreateContext(dpy, vis, shareList, direct)`. -/
def glXCreateContext (glx : GLX) (dpy : Display) (vis : XVisualInfo)
    (shareList : GLXContext) (direct : Bool) (w : World) : GLXContext × World :=
  let ret := glx.createContext dpy vis shareList direct
  (ret, w.call (.createContext dpy vis shareList direct ret))

/-- The call `glXDestroyContext(dpy, ctx)`. -/
def glXDestroyContext (dpy : Display) (ctx : GLXContext) (w : World) : World :=
  w.call (.destroyContext dpy ctx)

/-- The call `glXMakeCurrent(dpy, drawable, ctx)`: on success the thread's binding is
the given triple, on failure it stays what it was. -/
def glXMakeCurrent (glx : GLX) (dpy : Display) (drawable : GLXDrawable)
    (ctx : GLXContext) (w : World) : World :=
  let w1 := w.call (.makeCurrent dpy drawable ctx)
  if glx.makeCurrent dpy drawable ctx then
    { w1 with curDisplay := dpy, curDrawable := drawable, curContext := ctx }
  else w1

/-- Modelled from the spec: `TF_VERIFY` (pxr/base/tf/diagnostic.h) is not under
src/.  It yields its condition and, when the condition is false, reports a
non-fatal verification failure. -/
def TF_VERIFY (cond : Bool) (expr : String) (w : World) : Bool × World :=
  if cond then (true, w) else (false, w.post (.verifyFailed expr))

/-- Modelled from the spec: `TF_WARN` (pxr/base/tf/diagnostic.h) is not under
src/.  It emits a warning diagnostic. -/
def TF_WARN (msg : String) (w : World) : World :=
  w.post (.warn msg)


/-! ## Environment and the two cached flags -/

/-- The process environment: the value of each variable, `none` when unset. -/
abbrev Env := String → Option String

/-- Modelled from the spec: `TfGetenvBool` (pxr/base/tf/getenv.h) is not under
src/.  The variable's string is parsed as truthy or falsy; an unset variable
and an unparsable string give the default.  The classification of strings is
the parameter `parse` (`some true` truthy, `some false` falsy, `none`
unparsable). -/
def TfGetenvBool (parse : String → Option Bool) (env : Env) (envName : String)
    (defaultValue : Bool) : Bool :=
  match env envName with
  | none => defaultValue
  | some s => (parse s).getD defaultValue

/-- The process as this file sees it: its environment, the two function-local
statics (`none` until their initialiser has run), the names handed to
`TfGetenvBool` so far, and the world. -/
structure Proc where
  env : Env
  isEnabledDebugOutput : Option Bool
  isEnabledCoreProfile : Option Bool
  envReads : List String
  world : World

/-- A process at start-up: no static has been initialised, nothing was read. -/
def Proc.start (env : Env) (world : World) : Proc :=
  { env := env, isEnabledDebugOutput := none, isEnabledCoreProfile := none,
    envReads := [], world := world }

/-- The static `GlfQGLPlatformDebugContext::IsEnabledDebugOutput()`: the static
local is initialised from the environment the first time control passes
through its declaration, and returned. -/
def IsEnabledDebugOutput (parse : String → Option Bool) (p : Proc) : Bool × Proc :=
  match p.isEnabledDebugOutput with
  | some isEnabledDebugOutput => (isEnabledDebugOutput, p)
  | none =>
    let isEnabledDebugOutput := TfGetenvBool parse p.env "GLF_ENABLE_DEBUG_OUTPUT" false
    (isEnabledDebugOutput,
     { p with isEnabledDebugOutput := some isEnabledDebugOutput,
              envReads := p.envReads ++ ["GLF_ENABLE_DEBUG_OUTPUT"] })

/-- The static `GlfQGLPlatformDebugContext::IsEnabledCoreProfile()`. -/
def IsEnabledCoreProfile (parse : String → Option Bool) (p : Proc) : Bool × Proc :=
  match p.isEnabledCoreProfile with
  | some isEnabledCoreProfile => (isEnabledCoreProfile, p)
  | none =>
    let isEnabledCoreProfile := TfGetenvBool parse p.env "GLF_ENABLE_CORE_PROFILE" false
    (isEnabledCoreProfile,
     { p with isEnabledCoreProfile := some isEnabledCoreProfile,
              envReads := p.envReads ++ ["GLF_ENABLE_CORE_PROFILE"] })

/-! ## `#if defined(ARCH_OS_LINUX)` -/

namespace Linux

/-- The class `GlfQGLPlatformDebugContextPrivate` of the GLX branch. -/
structure GlfQGLPlatformDebugContextPrivate where
  _dpy : Display
  _ctx : GLXContext
  deriving DecidableEq, Repr

/-- The array `attribs` the constructor builds. -/
def attribs (majorVersion minorVersion : Int) (coreProfile : Bool) : List Int :=
  let profile :=
    if coreProfile then GLX_CONTEXT_CORE_PROFILE_BIT_ARB
    else GLX_CONTEXT_COMPATIBILITY_PROFILE_BIT_ARB
  [GLX_CONTEXT_MAJOR_VERSION_ARB, majorVersion,
   GLX_CONTEXT_MINOR_VERSION_ARB, minorVersion,
   GLX_CONTEXT_PROFILE_MASK_ARB, profile,
   GLX_CONTEXT_FLAGS_ARB, GLX_CONTEXT_DEBUG_BIT_ARB,
   0]

/-- The constructor `GlfQGLPlatformDebugContextPrivate(majorVersion,
minorVersion, coreProfile, directRendering)`. -/
def GlfQGLPlatformDebugContextPrivate.ctor (glx : GLX)
    (majorVersion minorVersion : Int) (coreProfile directRendering : Bool)
    (w0 : World) : GlfQGLPlatformDebugContextPrivate × World :=
  -- : _dpy(NULL), _ctx(NULL)
  let self : GlfQGLPlatformDebugContextPrivate := { _dpy := NULL, _ctx := NULL }
  let (shareDisplay, w1) := glXGetCurrentDisplay w0
  let (shareContext, w2) := glXGetCurrentContext w1
  let (fbConfigId, w3) := glXQueryContext glx shareDisplay shareContext GLX_FBCONFIG_ID 0 w2
  let (screen, w4) := glXQueryContext glx shareDisplay shareContext GLX_SCREEN 0 w3
  let configSpec := [GLX_FBCONFIG_ID, fbConfigId, None]
  let ((configs, configCount), w5) := glXChooseFBConfig glx shareDisplay screen configSpec w4
  let (verified, w6) := TF_VERIFY (decide (configCount > 0)) "configCount > 0" w5
  if !verified then (self, w6) else
  let (createContextAttribs, w7) := glXGetProcAddressARB glx "glXCreateContextAttribsARB" w6
  let (_ctx, w8) :=
    match createContextAttribs with
    | some f =>
      callCreateContextAttribs f shareDisplay (configs.getD 0 NULL) shareContext
        directRendering (attribs majorVersion minorVersion coreProfile) w7
    | none =>
      let w := TF_WARN "Unable to create GL debug context." w7
      let (vis, w) := glXGetVisualFromFBConfig glx shareDisplay (configs.getD 0 NULL) w
      glXCreateContext glx shareDisplay vis shareContext directRendering w
  let self := { self with _ctx := _ctx }
  let (verified, w9) := TF_VERIFY (decide (_ctx ≠ NULL)) "_ctx" w8
  if !verified then (self, w9) else
  ({ self with _dpy := shareDisplay }, w9)

/-- The destructor `~GlfQGLPlatformDebugContextPrivate()`. -/
def GlfQGLPlatformDebugContextPrivate.dtor (self : GlfQGLPlatformDebugContextPrivate)
    (w : World) : World :=
  if self._dpy ≠ NULL ∧ self._ctx ≠ NULL then glXDestroyContext self._dpy self._ctx w
  else w

/-- The method `GlfQGLPlatformDebugContextPrivate::MakeCurrent()`; the two
argument calls are taken left to right (both only read the binding). -/
def GlfQGLPlatformDebugContextPrivate.MakeCurrent (glx : GLX)
    (self : GlfQGLPlatformDebugContextPrivate) (w : World) : World :=
  let (dpy, w1) := glXGetCurrentDisplay w
  let (drawable, w2) := glXGetCurrentDrawable w1
  glXMakeCurrent glx dpy drawable self._ctx w2

/-- The function `GlfqSelectCoreProfileMacVisual()` of the GLX branch. -/
def GlfqSelectCoreProfileMacVisual : VoidPtr := NULL

end Linux

/-! ## `#if defined(ARCH_OS_DARWIN)` -/

namespace Darwin

/-- The class `GlfQGLPlatformDebugContextPrivate` of the Darwin branch: no
member, every body empty. -/
structure GlfQGLPlatformDebugContextPrivate where
  deriving DecidableEq, Repr

/-- The constructor, `{}`. -/
def GlfQGLPlatformDebugContextPrivate.ctor (_majorVersion _minorVersion : Int)
    (_coreProfile _directRendering : Bool) (w : World) :
    GlfQGLPlatformDebugContextPrivate × World :=
  ({}, w)

/-- The destructor, `{}`. -/
def GlfQGLPlatformDebugContextPrivate.dtor (_self : GlfQGLPlatformDebugContextPrivate)
    (w : World) : World := w

/-- The method `MakeCurrent() {}`. -/
def GlfQGLPlatformDebugContextPrivate.MakeCurrent
    (_self : GlfQGLPlatformDebugContextPrivate) (w : World) : World := w

/-- The function `GlfqSelectCoreProfileMacVisual()`, declared here and defined
in Objective-C elsewhere: a platform call whose answer `glx` holds. -/
def GlfqSelectCoreProfileMacVisual (glx : GLX) (w : World) : VoidPtr × World :=
  (glx.selectCoreProfileMacVisual, w.call .selectCoreProfileMacVisual)

end Darwin

/-! ## `#if defined(ARCH_OS_WINDOWS)` -/

namespace Windows

/-- The class `GlfQGLPlatformDebugContextPrivate` of the Windows branch: no
member, every body empty. -/
structure GlfQGLPlatformDebugContextPrivate where
  deriving DecidableEq, Repr

/-- The function `GlfqSelectCoreProfileMacVisual()` of the Windows branch. -/
def GlfqSelectCoreProfileMacVisual : VoidPtr := NULL

/-- The handle as this file uses it under `ARCH_OS_WINDOWS`: the member
initialisers and every member access are compiled out. -/
structure GlfQGLPlatformDebugContext where
  deriving DecidableEq, Repr

/-- The constructor of the handle under `ARCH_OS_WINDOWS`: the flag test and
nothing else. -/
def GlfQGLPlatformDebugContext.ctor (parse : String → Option Bool)
    (_majorVersion _minorVersion : Int) (_coreProfile _directRendering : Bool)
    (p : Proc) : GlfQGLPlatformDebugContext × Proc :=
  let (enabled, p1) := IsEnabledDebugOutput parse p
  if !enabled then ({}, p1) else
  ({}, p1)

/-- The method `makeCurrent()` under `ARCH_OS_WINDOWS`: an empty body. -/
def GlfQGLPlatformDebugContext.makeCurrent (_self : GlfQGLPlatformDebugContext)
    (p : Proc) : Proc := p

end Windows

/-! ## The handle, `#if !defined(ARCH_OS_WINDOWS)` -/

/-- The two platforms on which the handle has its members `_private` and
`_coreProfile`. -/
inductive Arch where
  | linux
  | darwin
  deriving DecidableEq, Repr

/-- The object `_private` points to: an instance of the class the platform
branch defines. -/
inductive PrivateResource where
  | linux (r : Linux.GlfQGLPlatformDebugContextPrivate)
  | darwin (r : Darwin.GlfQGLPlatformDebugContextPrivate)
  deriving DecidableEq, Repr

/-- The constructor of the platform's `GlfQGLPlatformDebugContextPrivate`. -/
def PrivateResource.ctor (arch : Arch) (glx : GLX) (majorVersion minorVersion : Int)
    (coreProfile directRendering : Bool) (w : World) : PrivateResource × World :=
  match arch with
  | .linux =>
    let (r, w1) := Linux.GlfQGLPlatformDebugContextPrivate.ctor glx
      majorVersion minorVersion coreProfile directRendering w
    (.linux r, w1)
  | .darwin =>
    let (r, w1) := Darwin.GlfQGLPlatformDebugContextPrivate.ctor
      majorVersion minorVersion coreProfile directRendering w
    (.darwin r, w1)

/-- The method `MakeCurrent()` of the platform's class. -/
def PrivateResource.MakeCurrent (glx : GLX) : PrivateResource → World → World
  | .linux r, w => r.MakeCurrent glx w
  | .darwin r, w => r.MakeCurrent w

/-- The destructor of the platform's class. -/
def PrivateResource.dtor : PrivateResource → World → World
  | .linux r, w => r.dtor w
  | .darwin r, w => r.dtor w

/-- The class `GlfQGLPlatformDebugContext`: `_private` is the owning pointer
(`none` is the null pointer). -/
structure GlfQGLPlatformDebugContext where
  _private : Option PrivateResource
  _coreProfile : Bool
  deriving DecidableEq, Repr

/-- The constructor `GlfQGLPlatformDebugContext(majorVersion, minorVersion,
coreProfile, directRendering)`. -/
def GlfQGLPlatformDebugContext.ctor (arch : Arch) (parse : String → Option Bool)
    (glx : GLX) (majorVersion minorVersion : Int) (coreProfile directRendering : Bool)
    (p : Proc) : GlfQGLPlatformDebugContext × Proc :=
  -- : _private(NULL), _coreProfile(coreProfile)
  let self : GlfQGLPlatformDebugContext := { _private := none, _coreProfile := coreProfile }
  let (enabled, p1) := IsEnabledDebugOutput parse p
  if !enabled then (self, p1) else
  let (r, w) := PrivateResource.ctor arch glx majorVersion minorVersion
    coreProfile directRendering p1.world
  ({ self with _private := some r }, { p1 with world := w })

/-- The destructor `~GlfQGLPlatformDebugContext()`: its body is empty, the
owning pointer `_private` deletes what it holds. -/
def GlfQGLPlatformDebugContext.dtor (self : GlfQGLPlatformDebugContext) (p : Proc) : Proc :=
  match self._private with
  | none => p
  | some r => { p with world := r.dtor p.world }

/-- The method `GlfQGLPlatformDebugContext::makeCurrent()`. -/
def GlfQGLPlatformDebugContext.makeCurrent (parse : String → Option Bool) (glx : GLX)
    (self : GlfQGLPlatformDebugContext) (p : Proc) : Proc :=
  let (enabled, p1) := IsEnabledDebugOutput parse p
  if !enabled then p1 else
  let (verified, w) := TF_VERIFY self._private.isSome "_private" p1.world
  if !verified then { p1 with world := w } else
  match self._private with
  | none => { p1 with world := w }
  | some r => { p1 with world := r.MakeCurrent glx w }

/-- The method `GlfQGLPlatformDebugContext::chooseMacVisual()`, compiled under
`ARCH_OS_DARWIN` only; `or` does not evaluate its right operand when the left
one is true. -/
def GlfQGLPlatformDebugContext.chooseMacVisual (parse : String → Option Bool) (glx : GLX)
    (self : GlfQGLPlatformDebugContext) (p : Proc) : VoidPtr × Proc :=
  let (cond, p1) :=
    if self._coreProfile then (true, p) else IsEnabledCoreProfile parse p
  if cond then
    let (v, w) := Darwin.GlfqSelectCoreProfileMacVisual glx p1.world
    (v, { p1 with world := w })
  else
    (NULL, p1)

/-! ## What else happens in the process between two calls -/

/-- Something the rest of the process does between two calls into this file:
it sets or unsets an environment variable, calls one of the two flag
functions, or makes another display, drawable and context current. -/
inductive Action where
  | setenv (envName : String) (value : Option String)
  | IsEnabledDebugOutput
  | IsEnabledCoreProfile
  | bind (dpy : Display) (drawable : GLXDrawable) (ctx : GLXContext)
  deriving DecidableEq, Repr

/-- The environment after `envName` is set to `value` (`none`: unset). -/
def Env.set (env : Env) (envName : String) (value : Option String) : Env :=
  fun n => if n = envName then value else env n

/-- One action: the value a flag function returned, if the action is such a
call, and the process afterwards. -/
def Action.exec (parse : String → Option Bool) : Action → Proc → Option Bool × Proc
  | .setenv envName value, p => (none, { p with env := p.env.set envName value })
  | .IsEnabledDebugOutput, p =>
    let (b, p1) := Glfq.IsEnabledDebugOutput parse p
    (some b, p1)
  | .IsEnabledCoreProfile, p =>
    let (b, p1) := Glfq.IsEnabledCoreProfile parse p
    (some b, p1)
  | .bind dpy drawable ctx, p =>
    (none, { p with world := { p.world with
      curDisplay := dpy, curDrawable := drawable, curContext := ctx } })

/-- A sequence of actions: each action paired with what it returned, and the
process afterwards. -/
def run (parse : String → Option Bool) : List Action → Proc → List (Action × Option Bool) × Proc
  | [], p => ([], p)
  | a :: rest, p =>
    let (r, p1) := a.exec parse p
    let (rs, p2) := run parse rest p1
    ((a, r) :: rs, p2)

/-! ## Naming what GLX answers during one construction -/

namespace Linux

/-- The value `fbConfigId` holds after the first `glXQueryContext`. -/
def fbConfigIdOf (glx : GLX) (w : World) : Int :=
  (glx.queryContext w.curDisplay w.curContext GLX_FBCONFIG_ID).getD 0

/-- The value `screen` holds after the second `glXQueryContext`. -/
def screenOf (glx : GLX) (w : World) : Int :=
  (glx.queryContext w.curDisplay w.curContext GLX_SCREEN).getD 0

/-- The array `configSpec`. -/
def configSpecOf (glx : GLX) (w : World) : List Int :=
  [GLX_FBCONFIG_ID, fbConfigIdOf glx w, None]

/-- The configurations GLX enumerates for the context current in `w`. -/
def matchingConfigs (glx : GLX) (w : World) : List GLXFBConfig :=
  glx.chooseFBConfig w.curDisplay (screenOf glx w) (configSpecOf glx w)

/-- The five calls every construction starts with. -/
def queries (glx : GLX) (w : World) : List PlatformCall :=
  [.getCurrentDisplay, .getCurrentContext,
   .queryContext w.curDisplay w.curContext GLX_FBCONFIG_ID,
   .queryContext w.curDisplay w.curContext GLX_SCREEN,
   .chooseFBConfig w.curDisplay (screenOf glx w) (configSpecOf glx w)]

end Linux

/-- The context a platform call returned, when the call is one of the two
that create a context (`NULL` results included). -/
def PlatformCall.created : PlatformCall → Option GLXContext
  | .createContextAttribsARB _ _ _ _ _ ret => some ret
  | .createContext _ _ _ _ ret => some ret
  | _ => none

/-- The results of the context-creating calls in a list of platform calls, in
order, `NULL` results included. -/
def creationResults (calls : List PlatformCall) : List GLXContext :=
  calls.filterMap PlatformCall.created

/-- The context a platform call releases, when the call is
`glXDestroyContext`. -/
def PlatformCall.released : PlatformCall → Option GLXContext
  | .destroyContext _ ctx => some ctx
  | _ => none

/-- The contexts a list of platform calls released, in order. -/
def releasedContexts (calls : List PlatformCall) : List GLXContext :=
  calls.filterMap PlatformCall.released

/-- Whether a diagnostic is a verification failure. -/
def Diag.isVerifyFailed : Diag → Bool
  | .verifyFailed _ => true
  | .warn _ => false

/-! ## The two flags, uniformly -/

/-- The two flags of this file. -/
inductive Flag where
  | debugOutput
  | coreProfile
  deriving DecidableEq, Repr

/-- The environment variable a flag is read from. -/
def Flag.envName : Flag → String
  | .debugOutput => "GLF_ENABLE_DEBUG_OUTPUT"
  | .coreProfile => "GLF_ENABLE_CORE_PROFILE"

/-- The action of calling a flag's function. -/
def Flag.action : Flag → Action
  | .debugOutput => .IsEnabledDebugOutput
  | .coreProfile => .IsEnabledCoreProfile

/-- The static local of a flag's function. -/
def Flag.cache : Flag → Proc → Option Bool
  | .debugOutput, p => p.isEnabledDebugOutput
  | .coreProfile, p => p.isEnabledCoreProfile

/-- Reads per flag: none while the static is uninitialised, one afterwards. -/
def ReadsMatchCache (p : Proc) : Prop :=
  ∀ f : Flag, p.envReads.count f.envName = if f.cache p = none then 0 else 1

/-! ## Concrete inputs -/

namespace Example

/-- A thread with display 1, drawable 2 and context 3 current, no call issued
and no diagnostic posted yet. -/
def world : World :=
  { curDisplay := 1, curDrawable := 2, curContext := 3, calls := [], diags := [] }

/-- A thread with nothing current. -/
def bare : World :=
  { curDisplay := NULL, curDrawable := 0, curContext := NULL, calls := [], diags := [] }

/-- A GLX that knows configuration id 5 on screen 0 for a non-null display and
context, enumerates `configs` for a non-null display, resolves the extension
entry point to `entry`, derives visual 9, returns `legacy` from
`glXCreateContext` and accepts every `glXMakeCurrent`. -/
def glx (configs : List GLXFBConfig) (entry : Option PFNGLXCREATECONTEXTATTRIBSARBPROC)
    (legacy : GLXContext) : GLX :=
  { queryContext := fun dpy ctx attr =>
      if dpy = NULL ∨ ctx = NULL then none
      else if attr = GLX_FBCONFIG_ID then some 5 else some 0
    chooseFBConfig := fun dpy _ _ => if dpy = NULL then [] else configs
    getProcAddressARB := fun _ => entry
    getVisualFromFBConfig := fun _ _ => 9
    createContext := fun _ _ _ _ => legacy
    makeCurrent := fun _ _ _ => true
    selectCoreProfileMacVisual := 11 }

/-- An extension entry point that returns context 8. -/
def entry : PFNGLXCREATECONTEXTATTRIBSARBPROC := fun _ _ _ _ _ => 8

/-- A parse of the two strings "1" (truthy) and "0" (falsy). -/
def parse (s : String) : Option Bool :=
  if s = "1" then some true else if s = "0" then some false else none

/-- An environment with `GLF_ENABLE_DEBUG_OUTPUT=1` and nothing else. -/
def envOn : Env :=
  fun n => if n = "GLF_ENABLE_DEBUG_OUTPUT" then some "1" else none

/-- An environment with `GLF_ENABLE_DEBUG_OUTPUT=0` and nothing else. -/
def envOff : Env :=
  fun n => if n = "GLF_ENABLE_DEBUG_OUTPUT" then some "0" else none

/-- An environment with `GLF_ENABLE_CORE_PROFILE=1` and nothing else. -/
def envCore : Env :=
  fun n => if n = "GLF_ENABLE_CORE_PROFILE" then some "1" else none

end Example

/-! ## Lemmas -/

namespace Linux

theorem ctor_no_config (glx : GLX) (majorVersion minorVersion : Int)
    (coreProfile directRendering : Bool) (w : World)
    (h : matchingConfigs glx w = []) :
    GlfQGLPlatformDebugContextPrivate.ctor glx majorVersion minorVersion
        coreProfile directRendering w
      = ({ _dpy := NULL, _ctx := NULL },
         { w with calls := w.calls ++ queries glx w,
                  diags := w.diags ++ [.verifyFailed "configCount > 0"] }) := by
  simp only [matchingConfigs, screenOf, configSpecOf, fbConfigIdOf] at h
  simp [GlfQGLPlatformDebugContextPrivate.ctor, glXGetCurrentDisplay, glXGetCurrentContext,
    glXQueryContext, glXChooseFBConfig, TF_VERIFY, World.call, World.post, queries,
    screenOf, configSpecOf, fbConfigIdOf, h]

theorem ctor_ext (glx : GLX) (majorVersion minorVersion : Int)
    (coreProfile directRendering : Bool) (w : World)
    (c0 : GLXFBConfig) (rest : List GLXFBConfig) (f : PFNGLXCREATECONTEXTATTRIBSARBPROC)
    (h : matchingConfigs glx w = c0 :: rest)
    (hf : glx.getProcAddressARB "glXCreateContextAttribsARB" = some f) :
    GlfQGLPlatformDebugContextPrivate.ctor glx majorVersion minorVersion
        coreProfile directRendering w
      = let ctx := f w.curDisplay c0 w.curContext directRendering
          (attribs majorVersion minorVersion coreProfile)
        let calls := w.calls ++ queries glx w ++
          [.getProcAddressARB "glXCreateContextAttribsARB",
           .createContextAttribsARB w.curDisplay c0 w.curContext directRendering
             (attribs majorVersion minorVersion coreProfile) ctx]
        if ctx = NULL then
          ({ _dpy := NULL, _ctx := NULL },
           { w with calls := calls, diags := w.diags ++ [.verifyFailed "_ctx"] })
        else
          ({ _dpy := w.curDisplay, _ctx := ctx }, { w with calls := calls }) := by
  simp only [matchingConfigs, screenOf, configSpecOf, fbConfigIdOf] at h
  by_cases hc : f w.curDisplay c0 w.curContext directRendering
      (attribs majorVersion minorVersion coreProfile) = NULL <;>
  simp [GlfQGLPlatformDebugContextPrivate.ctor, glXGetCurrentDisplay, glXGetCurrentContext,
    glXQueryContext, glXChooseFBConfig, TF_VERIFY, World.call, World.post, queries,
    screenOf, configSpecOf, fbConfigIdOf, h, hf, glXGetProcAddressARB,
    callCreateContextAttribs, hc]

theorem ctor_legacy (glx : GLX) (majorVersion minorVersion : Int)
    (coreProfile directRendering : Bool) (w : World)
    (c0 : GLXFBConfig) (rest : List GLXFBConfig)
    (h : matchingConfigs glx w = c0 :: rest)
    (hf : glx.getProcAddressARB "glXCreateContextAttribsARB" = none) :
    GlfQGLPlatformDebugContextPrivate.ctor glx majorVersion minorVersion
        coreProfile directRendering w
      = let vis := glx.getVisualFromFBConfig w.curDisplay c0
        let ctx := glx.createContext w.curDisplay vis w.curContext directRendering
        let calls := w.calls ++ queries glx w ++
          [.getProcAddressARB "glXCreateContextAttribsARB",
           .getVisualFromFBConfig w.curDisplay c0,
           .createContext w.curDisplay vis w.curContext directRendering ctx]
        let warned := w.diags ++ [.warn "Unable to create GL debug context."]
        if ctx = NULL then
          ({ _dpy := NULL, _ctx := NULL },
           { w with calls := calls, diags := warned ++ [.verifyFailed "_ctx"] })
        else
          ({ _dpy := w.curDisplay, _ctx := ctx }, { w with calls := calls, diags := warned }) := by
  simp only [matchingConfigs, screenOf, configSpecOf, fbConfigIdOf] at h
  by_cases hc : glx.createContext w.curDisplay (glx.getVisualFromFBConfig w.curDisplay c0)
      w.curContext directRendering = NULL <;>
  simp [GlfQGLPlatformDebugContextPrivate.ctor, glXGetCurrentDisplay, glXGetCurrentContext,
    glXQueryContext, glXChooseFBConfig, TF_VERIFY, World.call, World.post, queries,
    screenOf, configSpecOf, fbConfigIdOf, h, hf, glXGetProcAddressARB,
    glXGetVisualFromFBConfig, glXCreateContext, TF_WARN, hc]

end Linux

/-! ## The platform resource on GLX -/

namespace Linux

/-- C8: when a matching configuration exists and the extension entry point
resolves, the constructor calls it exactly once, with the display and context
current at construction, the first matching configuration, the
`directRendering` value and the attribute list of major version, minor version,
profile mask (core or compatibility bit) and debug flag, zero-terminated. -/
theorem C8_extension_call_arguments (glx : GLX) (majorVersion minorVersion : Int)
    (coreProfile directRendering : Bool) (w : World)
    (c0 : GLXFBConfig) (rest : List GLXFBConfig) (f : PFNGLXCREATECONTEXTATTRIBSARBPROC)
    (hconfigs : matchingConfigs glx w = c0 :: rest)
    (hentry : glx.getProcAddressARB "glXCreateContextAttribsARB" = some f) :
    let p := if coreProfile then GLX_CONTEXT_CORE_PROFILE_BIT_ARB
             else GLX_CONTEXT_COMPATIBILITY_PROFILE_BIT_ARB
    let attribList : List Int :=
      [GLX_CONTEXT_MAJOR_VERSION_ARB, majorVersion,
       GLX_CONTEXT_MINOR_VERSION_ARB, minorVersion,
       GLX_CONTEXT_PROFILE_MASK_ARB, p,
       GLX_CONTEXT_FLAGS_ARB, GLX_CONTEXT_DEBUG_BIT_ARB, 0]
    (GlfQGLPlatformDebugContextPrivate.ctor glx majorVersion minorVersion
        coreProfile directRendering w).2.calls
      = w.calls ++ queries glx w ++
          [.getProcAddressARB "glXCreateContextAttribsARB",
           .createContextAttribsARB w.curDisplay c0 w.curContext directRendering attribList
             (f w.curDisplay c0 w.curContext directRendering attribList)] := by
  rw [ctor_ext glx majorVersion minorVersion coreProfile directRendering w c0 rest f
    hconfigs hentry]
  simp only [attribs]
  split_ifs <;> rfl

/-- C8, at the concrete request `(4, 1, false, true)`: version 4.1,
compatibility profile, debug flag. -/
theorem C8_extension_call_arguments_witness :
    matchingConfigs (Example.glx [7, 6] (some Example.entry) 0) Example.world = [7, 6] ∧
    (Example.glx [7, 6] (some Example.entry) 0).getProcAddressARB
      "glXCreateContextAttribsARB" = some Example.entry ∧
    (GlfQGLPlatformDebugContextPrivate.ctor (Example.glx [7, 6] (some Example.entry) 0)
        4 1 false true Example.world).2.calls
      = [.getCurrentDisplay, .getCurrentContext,
         .queryContext 1 3 0x8013, .queryContext 1 3 0x800C,
         .chooseFBConfig 1 0 [0x8013, 5, 0],
         .getProcAddressARB "glXCreateContextAttribsARB",
         .createContextAttribsARB 1 7 3 true
           [0x2091, 4, 0x2092, 1, 0x9126, 0x0002, 0x2094, 0x0001, 0] 8] :=
  ⟨by decide, rfl,
   C8_extension_call_arguments (Example.glx [7, 6] (some Example.entry) 0) 4 1 false true
     Example.world 7 [6] Example.entry (by decide) rfl⟩

end Linux

namespace Linux

/-- What the destructor does, call by call. -/
theorem dtor_eq (self : GlfQGLPlatformDebugContextPrivate) (w : World) :
    self.dtor w =
      if self._dpy ≠ NULL ∧ self._ctx ≠ NULL then
        { w with calls := w.calls ++ [.destroyContext self._dpy self._ctx] }
      else w := by
  simp [GlfQGLPlatformDebugContextPrivate.dtor, glXDestroyContext, World.call]

/-- The constructor's calls extend the calls issued before it. -/
theorem ctor_calls_prefix (glx : GLX) (majorVersion minorVersion : Int)
    (coreProfile directRendering : Bool) (w : World) :
    ∃ more, (GlfQGLPlatformDebugContextPrivate.ctor glx majorVersion minorVersion
        coreProfile directRendering w).2.calls = w.calls ++ queries glx w ++ more := by
  cases h : matchingConfigs glx w with
  | nil =>
    rw [ctor_no_config glx majorVersion minorVersion coreProfile directRendering w h]
    exact ⟨[], by simp⟩
  | cons c0 rest =>
    cases hf : glx.getProcAddressARB "glXCreateContextAttribsARB" with
    | none =>
      rw [ctor_legacy glx majorVersion minorVersion coreProfile directRendering w c0 rest h hf]
      simp only
      split_ifs <;> exact ⟨_, rfl⟩
    | some f =>
      rw [ctor_ext glx majorVersion minorVersion coreProfile directRendering w c0 rest f h hf]
      simp only
      split_ifs <;> exact ⟨_, rfl⟩

/-- C9: the constructor is all-or-nothing.  With no matching configuration
(`configCount <= 0`) it reports a verification failure, issues no call after
the enumeration and leaves `_dpy` and `_ctx` null; with a configuration it
makes exactly one context-creating call, as its last call, and either that
call returned null, a verification failure is reported and `_dpy` and `_ctx`
are null, or it stores the display current at construction and the returned
context and reports no verification failure.  In both failure cases the
destructor does nothing; in every case a non-null `_dpy` implies a non-null
`_ctx`. -/
theorem C9_all_or_nothing (glx : GLX) (majorVersion minorVersion : Int)
    (coreProfile directRendering : Bool) (w : World) :
    let r := (GlfQGLPlatformDebugContextPrivate.ctor glx majorVersion minorVersion
      coreProfile directRendering w).1
    let w1 := (GlfQGLPlatformDebugContextPrivate.ctor glx majorVersion minorVersion
      coreProfile directRendering w).2
    let configCount : Int := ((matchingConfigs glx w).length : Int)
    let newCalls := w1.calls.drop w.calls.length
    let newDiags := w1.diags.drop w.diags.length
    (configCount ≤ 0 →
      r = { _dpy := NULL, _ctx := NULL } ∧
      newDiags = [.verifyFailed "configCount > 0"] ∧
      newCalls = queries glx w ∧ creationResults newCalls = [] ∧
      r.dtor w1 = w1) ∧
    (configCount > 0 →
      ∃ ctx, creationResults newCalls = [ctx] ∧
        (newCalls.getLast?.bind PlatformCall.created) = some ctx ∧
        (ctx = NULL →
          r = { _dpy := NULL, _ctx := NULL } ∧
          newDiags.filter Diag.isVerifyFailed = [.verifyFailed "_ctx"] ∧
          r.dtor w1 = w1) ∧
        (ctx ≠ NULL →
          r = { _dpy := w.curDisplay, _ctx := ctx } ∧
          newDiags.filter Diag.isVerifyFailed = [])) ∧
    (r._dpy ≠ NULL → r._ctx ≠ NULL) := by
  intro r w1 configCount newCalls newDiags
  cases h : matchingConfigs glx w with
  | nil =>
    have e := ctor_no_config glx majorVersion minorVersion coreProfile directRendering w h
    simp only [r, w1, configCount, newCalls, newDiags, e, h]
    simp [dtor_eq, NULL, creationResults, queries, PlatformCall.created]
  | cons c0 rest =>
    cases hf : glx.getProcAddressARB "glXCreateContextAttribsARB" with
    | none =>
      have e := ctor_legacy glx majorVersion minorVersion coreProfile directRendering w
        c0 rest h hf
      simp only [r, w1, configCount, newCalls, newDiags, e, h]
      by_cases hc : glx.createContext w.curDisplay (glx.getVisualFromFBConfig w.curDisplay c0)
          w.curContext directRendering = NULL
      · simp [hc, dtor_eq, NULL, creationResults, queries, PlatformCall.created,
          Diag.isVerifyFailed]
      · simp [hc, dtor_eq, creationResults, queries, PlatformCall.created,
          Diag.isVerifyFailed]
    | some f =>
      have e := ctor_ext glx majorVersion minorVersion coreProfile directRendering w
        c0 rest f h hf
      simp only [r, w1, configCount, newCalls, newDiags, e, h]
      by_cases hc : f w.curDisplay c0 w.curContext directRendering
          (attribs majorVersion minorVersion coreProfile) = NULL
      · simp [hc, dtor_eq, NULL, creationResults, queries, PlatformCall.created,
          Diag.isVerifyFailed]
      · simp [hc, dtor_eq, creationResults, queries, PlatformCall.created,
          Diag.isVerifyFailed]

end Linux

namespace Linux

/-- C9 at three concrete constructions: no configuration, a null result of
the extension entry point, and a successful legacy creation. -/
theorem C9_all_or_nothing_witness :
    ((GlfQGLPlatformDebugContextPrivate.ctor (Example.glx [] none 4) 4 1 false true
        Example.world).1 = { _dpy := NULL, _ctx := NULL } ∧
      (GlfQGLPlatformDebugContextPrivate.ctor (Example.glx [] none 4) 4 1 false true
        Example.world).2.diags = [.verifyFailed "configCount > 0"]) ∧
    (GlfQGLPlatformDebugContextPrivate.ctor (Example.glx [7] (some fun _ _ _ _ _ => NULL) 4)
        4 1 false true Example.world).1 = { _dpy := NULL, _ctx := NULL } ∧
    (GlfQGLPlatformDebugContextPrivate.ctor (Example.glx [7] none 4) 4 1 false true
        Example.world).1 = { _dpy := 1, _ctx := 4 } :=
  ⟨have h := (C9_all_or_nothing (Example.glx [] none 4) 4 1 false true Example.world).1
      (by decide)
   ⟨h.1, h.2.1⟩,
   by
    obtain ⟨ctx, h1, _, h3, _⟩ :=
      (C9_all_or_nothing (Example.glx [7] (some fun _ _ _ _ _ => NULL) 4) 4 1 false true
        Example.world).2.1 (by decide)
    have hctx : ctx = NULL := by
      have h1' : [NULL] = [ctx] := h1
      exact (List.head_eq_of_cons_eq h1').symm
    exact (h3 hctx).1,
   by
    obtain ⟨ctx, h1, _, _, h4⟩ :=
      (C9_all_or_nothing (Example.glx [7] none 4) 4 1 false true Example.world).2.1
        (by decide)
    have hctx : ctx = 4 := by
      have h1' : [4] = [ctx] := h1
      exact (List.head_eq_of_cons_eq h1').symm
    have hne : ctx ≠ NULL := by rw [hctx]; decide
    have h := (h4 hne).1
    rw [hctx] at h
    exact h⟩

/-- C5: the destructor issues exactly one call, `glXDestroyContext` on the
stored display and context, when both are non-null, and otherwise leaves the
world as it is; and a construction with a non-null display current whose
context-creating call returned a non-null context `c`, followed by
destruction, releases exactly the context `c`, once, on that display, and `c`
is the only context the construction created. -/
theorem C5_destructor_releases_created (glx : GLX) :
    (∀ (self : GlfQGLPlatformDebugContextPrivate) (w : World),
      (self._dpy ≠ NULL ∧ self._ctx ≠ NULL →
        self.dtor w = { w with calls := w.calls ++ [.destroyContext self._dpy self._ctx] }) ∧
      (¬ (self._dpy ≠ NULL ∧ self._ctx ≠ NULL) → self.dtor w = w)) ∧
    (∀ (majorVersion minorVersion : Int) (coreProfile directRendering : Bool)
        (w : World) (c : GLXContext),
      w.curDisplay ≠ NULL → c ≠ NULL →
      creationResults ((GlfQGLPlatformDebugContextPrivate.ctor glx majorVersion minorVersion
        coreProfile directRendering w).2.calls.drop w.calls.length) = [c] →
      let r := (GlfQGLPlatformDebugContextPrivate.ctor glx majorVersion minorVersion
        coreProfile directRendering w).1
      let w1 := (GlfQGLPlatformDebugContextPrivate.ctor glx majorVersion minorVersion
        coreProfile directRendering w).2
      (r.dtor w1).calls = w1.calls ++ [.destroyContext w.curDisplay c] ∧
      releasedContexts ((r.dtor w1).calls.drop w.calls.length) = [c] ∧
      releasedContexts (w1.calls.drop w.calls.length) = []) := by
  refine ⟨fun self w => ⟨fun h => ?_, fun h => ?_⟩, ?_⟩
  · rw [dtor_eq, if_pos h]
  · rw [dtor_eq, if_neg h]
  · intro majorVersion minorVersion coreProfile directRendering w c hd hc hcr r w1
    cases h : matchingConfigs glx w with
    | nil =>
      have e := ctor_no_config glx majorVersion minorVersion coreProfile directRendering w h
      rw [e] at hcr
      simp [creationResults, queries, PlatformCall.created] at hcr
    | cons c0 rest =>
      cases hf : glx.getProcAddressARB "glXCreateContextAttribsARB" with
      | none =>
        have e := ctor_legacy glx majorVersion minorVersion coreProfile directRendering w
          c0 rest h hf
        simp only [r, w1]
        rw [e] at hcr ⊢
        by_cases hx : glx.createContext w.curDisplay
            (glx.getVisualFromFBConfig w.curDisplay c0) w.curContext directRendering = NULL
        · simp [hx, creationResults, queries, PlatformCall.created] at hcr
          exact absurd hcr.symm hc
        · simp [hx, creationResults, queries, PlatformCall.created] at hcr
          simp [hx, hcr, hd, hc, dtor_eq, releasedContexts, queries, PlatformCall.released]
      | some f =>
        have e := ctor_ext glx majorVersion minorVersion coreProfile directRendering w
          c0 rest f h hf
        simp only [r, w1]
        rw [e] at hcr ⊢
        by_cases hx : f w.curDisplay c0 w.curContext directRendering
            (attribs majorVersion minorVersion coreProfile) = NULL
        · simp [hx, creationResults, queries, PlatformCall.created] at hcr
          exact absurd hcr.symm hc
        · simp [hx, creationResults, queries, PlatformCall.created] at hcr
          simp [hx, hcr, hd, hc, dtor_eq, releasedContexts, queries, PlatformCall.released]

end Linux

namespace Linux

/-- C5 at a concrete construction through the extension entry point, which
returns context 8 on display 1. -/
theorem C5_destructor_releases_created_witness :
    Example.world.curDisplay ≠ NULL ∧ (8 : GLXContext) ≠ NULL ∧
    creationResults ((GlfQGLPlatformDebugContextPrivate.ctor
      (Example.glx [7] (some Example.entry) 0) 4 1 true true
      Example.world).2.calls.drop Example.world.calls.length) = [8] ∧
    ((GlfQGLPlatformDebugContextPrivate.ctor (Example.glx [7] (some Example.entry) 0)
        4 1 true true Example.world).1.dtor
      (GlfQGLPlatformDebugContextPrivate.ctor (Example.glx [7] (some Example.entry) 0)
        4 1 true true Example.world).2).calls
      = (GlfQGLPlatformDebugContextPrivate.ctor (Example.glx [7] (some Example.entry) 0)
          4 1 true true Example.world).2.calls ++ [.destroyContext 1 8] :=
  ⟨by decide, by decide, by decide,
   ((C5_destructor_releases_created (Example.glx [7] (some Example.entry) 0)).2
      4 1 true true Example.world 8 (by decide) (by decide) (by decide)).1⟩

/-- C6 fails as stated: a matching configuration exists and the extension
entry point is unresolved, yet legacy `glXCreateContext` returns null and the
resource ends with a null stored context and a null stored display. -/
theorem C6_counterexample :
    Example.world.curDisplay ≠ NULL ∧
    matchingConfigs (Example.glx [7] none NULL) Example.world = [7] ∧
    (Example.glx [7] none NULL).getProcAddressARB "glXCreateContextAttribsARB" = none ∧
    (GlfQGLPlatformDebugContextPrivate.ctor (Example.glx [7] none NULL) 4 1 false true
        Example.world).1._ctx = NULL ∧
    (GlfQGLPlatformDebugContextPrivate.ctor (Example.glx [7] none NULL) 4 1 false true
        Example.world).1._dpy = NULL :=
  ⟨by decide, by decide, rfl, by decide, by decide⟩

/-- C6, amended: when a matching configuration exists and the extension entry
point is unresolved, the constructor warns "Unable to create GL debug
context." exactly once and calls legacy `glXCreateContext` exactly once, with
the visual derived from the first matching configuration, the share context
found at the start and the `directRendering` value; if that call returns a
non-null context the resource stores it together with the display current at
construction (non-null when that display is), and if it returns null a
verification failure follows the warning and both stay null. -/
theorem C6_legacy_fallback (glx : GLX) (majorVersion minorVersion : Int)
    (coreProfile directRendering : Bool) (w : World)
    (c0 : GLXFBConfig) (rest : List GLXFBConfig)
    (hconfigs : matchingConfigs glx w = c0 :: rest)
    (hentry : glx.getProcAddressARB "glXCreateContextAttribsARB" = none) :
    let r := (GlfQGLPlatformDebugContextPrivate.ctor glx majorVersion minorVersion
      coreProfile directRendering w).1
    let w1 := (GlfQGLPlatformDebugContextPrivate.ctor glx majorVersion minorVersion
      coreProfile directRendering w).2
    let vis := glx.getVisualFromFBConfig w.curDisplay c0
    let ctx := glx.createContext w.curDisplay vis w.curContext directRendering
    w1.calls = w.calls ++ queries glx w ++
      [.getProcAddressARB "glXCreateContextAttribsARB",
       .getVisualFromFBConfig w.curDisplay c0,
       .createContext w.curDisplay vis w.curContext directRendering ctx] ∧
    w1.diags = w.diags ++ [.warn "Unable to create GL debug context."] ++
      (if ctx = NULL then [.verifyFailed "_ctx"] else []) ∧
    (ctx ≠ NULL →
      r = { _dpy := w.curDisplay, _ctx := ctx } ∧
      r._ctx ≠ NULL ∧ (w.curDisplay ≠ NULL → r._dpy ≠ NULL)) ∧
    (ctx = NULL → r = { _dpy := NULL, _ctx := NULL }) := by
  intro r w1 vis ctx
  have e := ctor_legacy glx majorVersion minorVersion coreProfile directRendering w
    c0 rest hconfigs hentry
  simp only [r, w1, vis, ctx, e]
  by_cases hx : glx.createContext w.curDisplay
      (glx.getVisualFromFBConfig w.curDisplay c0) w.curContext directRendering = NULL
  · simp [hx]
  · simp [hx]

/-- C6, amended, at a concrete construction whose legacy creation returns
context 4. -/
theorem C6_legacy_fallback_witness :
    matchingConfigs (Example.glx [7, 6] none 4) Example.world = [7, 6] ∧
    (Example.glx [7, 6] none 4).getProcAddressARB "glXCreateContextAttribsARB" = none ∧
    (GlfQGLPlatformDebugContextPrivate.ctor (Example.glx [7, 6] none 4) 4 1 false true
        Example.world).2.calls
      = [.getCurrentDisplay, .getCurrentContext,
         .queryContext 1 3 0x8013, .queryContext 1 3 0x800C,
         .chooseFBConfig 1 0 [0x8013, 5, 0],
         .getProcAddressARB "glXCreateContextAttribsARB",
         .getVisualFromFBConfig 1 7,
         .createContext 1 9 3 true 4] ∧
    (GlfQGLPlatformDebugContextPrivate.ctor (Example.glx [7, 6] none 4) 4 1 false true
        Example.world).2.diags = [.warn "Unable to create GL debug context."] ∧
    (GlfQGLPlatformDebugContextPrivate.ctor (Example.glx [7, 6] none 4) 4 1 false true
        Example.world).1 = { _dpy := 1, _ctx := 4 } :=
  have h := C6_legacy_fallback (Example.glx [7, 6] none 4) 4 1 false true Example.world
    7 [6] (by decide) rfl
  ⟨by decide, rfl, h.1, h.2.1, (h.2.2.1 (by decide)).1⟩

/-- C4 fails as stated: with no display and no context current the
constructor still issues both `glXQueryContext` calls and `glXChooseFBConfig`,
on the null handles, before it reports anything. -/
theorem C4_counterexample :
    Example.bare.curDisplay = NULL ∧ Example.bare.curContext = NULL ∧
    (GlfQGLPlatformDebugContextPrivate.ctor (Example.glx [7] (some Example.entry) 4)
        4 1 false true Example.bare).2.calls
      = [.getCurrentDisplay, .getCurrentContext,
         .queryContext NULL NULL GLX_FBCONFIG_ID, .queryContext NULL NULL GLX_SCREEN,
         .chooseFBConfig NULL 0 [GLX_FBCONFIG_ID, 0, None]] := by
  decide

/-- C4, amended: the constructor does not test the display and context it
finds.  With no display or no context current it still issues the two
`glXQueryContext` calls and `glXChooseFBConfig`, on the handles it found; when
that enumeration yields no configuration, it then reports the verification
failure `configCount > 0` and returns with no further call (no entry-point
resolution, no context creation), leaving `_dpy` and `_ctx` both null and the
thread's binding as it was. -/
theorem C4_no_active_context (glx : GLX) (majorVersion minorVersion : Int)
    (coreProfile directRendering : Bool) (w : World)
    (hnull : w.curDisplay = NULL ∨ w.curContext = NULL) :
    let r := (GlfQGLPlatformDebugContextPrivate.ctor glx majorVersion minorVersion
      coreProfile directRendering w).1
    let w1 := (GlfQGLPlatformDebugContextPrivate.ctor glx majorVersion minorVersion
      coreProfile directRendering w).2
    let first : List PlatformCall :=
      [.getCurrentDisplay, .getCurrentContext,
       .queryContext w.curDisplay w.curContext GLX_FBCONFIG_ID,
       .queryContext w.curDisplay w.curContext GLX_SCREEN,
       .chooseFBConfig w.curDisplay (screenOf glx w) [GLX_FBCONFIG_ID, fbConfigIdOf glx w, None]]
    (∃ more, w1.calls = w.calls ++ first ++ more) ∧
    (matchingConfigs glx w = [] →
      w1.calls = w.calls ++ first ∧
      w1.diags = w.diags ++ [.verifyFailed "configCount > 0"] ∧
      r._dpy = NULL ∧ r._ctx = NULL ∧
      w1.curDisplay = w.curDisplay ∧ w1.curContext = w.curContext ∧
      w1.curDrawable = w.curDrawable) := by
  intro r w1 first
  have _ := hnull
  refine ⟨?_, fun hnone => ?_⟩
  · obtain ⟨more, h⟩ := ctor_calls_prefix glx majorVersion minorVersion coreProfile
      directRendering w
    exact ⟨more, by simpa [queries, configSpecOf] using h⟩
  · have e := ctor_no_config glx majorVersion minorVersion coreProfile directRendering w hnone
    simp only [r, w1, first, e]
    simp [queries, configSpecOf]

/-- C4, amended, at a thread with nothing current. -/
theorem C4_no_active_context_witness :
    (Example.bare.curDisplay = NULL ∨ Example.bare.curContext = NULL) ∧
    matchingConfigs (Example.glx [7] (some Example.entry) 4) Example.bare = [] ∧
    (GlfQGLPlatformDebugContextPrivate.ctor (Example.glx [7] (some Example.entry) 4)
        4 1 false true Example.bare).2.diags = [.verifyFailed "configCount > 0"] ∧
    (GlfQGLPlatformDebugContextPrivate.ctor (Example.glx [7] (some Example.entry) 4)
        4 1 false true Example.bare).1._dpy = NULL ∧
    (GlfQGLPlatformDebugContextPrivate.ctor (Example.glx [7] (some Example.entry) 4)
        4 1 false true Example.bare).1._ctx = NULL :=
  have h := (C4_no_active_context (Example.glx [7] (some Example.entry) 4) 4 1 false true
    Example.bare (Or.inl rfl)).2 (by decide)
  ⟨Or.inl rfl, by decide, h.2.1, h.2.2.1, h.2.2.2.1⟩

end Linux

/-- C3, the code at the failing input: a resource whose stored context is
null still issues `glXMakeCurrent`, with the null context, and under a GLX that
accepts the call the thread's current context changes from 3 to null; the same
happens through the handle when the flag is enabled and construction found no
configuration. -/
theorem C3_MakeCurrent_with_null_context :
    (Linux.GlfQGLPlatformDebugContextPrivate.MakeCurrent (Example.glx [] none 0)
        { _dpy := NULL, _ctx := NULL } Example.world).calls
      = [.getCurrentDisplay, .getCurrentDrawable, .makeCurrent 1 2 NULL] ∧
    Example.world.curContext = 3 ∧
    (Linux.GlfQGLPlatformDebugContextPrivate.MakeCurrent (Example.glx [] none 0)
        { _dpy := NULL, _ctx := NULL } Example.world).curContext = NULL ∧
    (GlfQGLPlatformDebugContext.ctor .linux Example.parse (Example.glx [] none 0)
        4 1 false true (Proc.start Example.envOn Example.world)).1._private
      = some (.linux { _dpy := NULL, _ctx := NULL }) ∧
    ((GlfQGLPlatformDebugContext.ctor .linux Example.parse (Example.glx [] none 0)
        4 1 false true (Proc.start Example.envOn Example.world)).1.makeCurrent
      Example.parse (Example.glx [] none 0)
      (GlfQGLPlatformDebugContext.ctor .linux Example.parse (Example.glx [] none 0)
        4 1 false true (Proc.start Example.envOn Example.world)).2).world.calls
      = [.getCurrentDisplay, .getCurrentContext,
         .queryContext 1 3 GLX_FBCONFIG_ID, .queryContext 1 3 GLX_SCREEN,
         .chooseFBConfig 1 0 [GLX_FBCONFIG_ID, 5, None],
         .getCurrentDisplay, .getCurrentDrawable, .makeCurrent 1 2 NULL] := by
  refine ⟨by decide, by decide, by decide, by decide, by decide⟩

/-! ## The cached flags -/

theorem IsEnabledDebugOutput_cached (parse : String → Option Bool) (p : Proc) (b : Bool)
    (h : p.isEnabledDebugOutput = some b) : IsEnabledDebugOutput parse p = (b, p) := by
  simp [IsEnabledDebugOutput, h]

theorem IsEnabledDebugOutput_world (parse : String → Option Bool) (p : Proc) :
    (IsEnabledDebugOutput parse p).2.world = p.world := by
  unfold IsEnabledDebugOutput
  split <;> rfl

theorem IsEnabledDebugOutput_sets (parse : String → Option Bool) (p : Proc) :
    (IsEnabledDebugOutput parse p).2.isEnabledDebugOutput
      = some (IsEnabledDebugOutput parse p).1 := by
  unfold IsEnabledDebugOutput
  split
  · next b h => simpa using h
  · rfl

theorem IsEnabledCoreProfile_world (parse : String → Option Bool) (p : Proc) :
    (IsEnabledCoreProfile parse p).2.world = p.world := by
  unfold IsEnabledCoreProfile
  split <;> rfl

/-- An action leaves an initialised static as it is, returns its value when it
is a call of that flag's function, and reads nothing for that flag. -/
theorem exec_of_cached (parse : String → Option Bool) (f : Flag) (v : Bool) (a : Action)
    (p : Proc) (h : f.cache p = some v) :
    f.cache (a.exec parse p).2 = some v ∧
    (a = f.action → (a.exec parse p).1 = some v) ∧
    (a.exec parse p).2.envReads.count f.envName = p.envReads.count f.envName := by
  cases f <;> cases a <;>
    simp only [Flag.cache, Flag.action, Flag.envName, Action.exec, IsEnabledDebugOutput,
      IsEnabledCoreProfile] at h ⊢
  all_goals
    cases hd : p.isEnabledDebugOutput <;> cases hc : p.isEnabledCoreProfile <;> simp_all

theorem run_of_cached (parse : String → Option Bool) (f : Flag) (v : Bool)
    (acts : List Action) :
    ∀ p : Proc, f.cache p = some v →
      f.cache (run parse acts p).2 = some v ∧
      (∀ r, (f.action, r) ∈ (run parse acts p).1 → r = some v) ∧
      (run parse acts p).2.envReads.count f.envName = p.envReads.count f.envName := by
  induction acts with
  | nil => intro p h; simp [run, h]
  | cons a rest ih =>
    intro p h
    obtain ⟨h1, h2, h3⟩ := exec_of_cached parse f v a p h
    obtain ⟨i1, i2, i3⟩ := ih (a.exec parse p).2 h1
    refine ⟨by simpa [run] using i1, ?_, by simpa [run, h3] using i3⟩
    intro r hr
    simp only [run, List.mem_cons, Prod.mk.injEq] at hr
    rcases hr with ⟨ha, hr⟩ | hr
    · rw [hr]; exact h2 ha.symm
    · exact i2 r hr

/-- An action other than a call of the flag's function leaves its static and
the reads for it as they are. -/
theorem exec_of_other (parse : String → Option Bool) (f : Flag) (a : Action)
    (p : Proc) (ha : a ≠ f.action) :
    f.cache (a.exec parse p).2 = f.cache p ∧
    (a.exec parse p).2.envReads.count f.envName = p.envReads.count f.envName := by
  cases f <;> cases a <;>
    simp only [Flag.cache, Flag.action, Flag.envName, Action.exec, IsEnabledDebugOutput,
      IsEnabledCoreProfile, ne_eq, not_true_eq_false] at ha ⊢
  all_goals
    cases hd : p.isEnabledDebugOutput <;> cases hc : p.isEnabledCoreProfile <;> simp_all

theorem run_of_other (parse : String → Option Bool) (f : Flag) (acts : List Action)
    (hacts : f.action ∉ acts) :
    ∀ p : Proc,
      f.cache (run parse acts p).2 = f.cache p ∧
      (run parse acts p).2.envReads.count f.envName = p.envReads.count f.envName := by
  induction acts with
  | nil => intro p; simp [run]
  | cons a rest ih =>
    intro p
    have ha : a ≠ f.action := fun e => hacts (by simp [e])
    have hrest : f.action ∉ rest := fun e => hacts (by simp [e])
    obtain ⟨h1, h2⟩ := exec_of_other parse f a p ha
    obtain ⟨i1, i2⟩ := ih hrest (a.exec parse p).2
    exact ⟨by simpa [run, h1] using i1, by simpa [run, h2] using i2⟩

theorem run_append (parse : String → Option Bool) (xs ys : List Action) :
    ∀ p : Proc, run parse (xs ++ ys) p =
      ((run parse xs p).1 ++ (run parse ys (run parse xs p).2).1,
       (run parse ys (run parse xs p).2).2) := by
  induction xs with
  | nil => intro p; simp [run]
  | cons a rest ih => intro p; simp [run, ih]

theorem mem_run_fst (parse : String → Option Bool) (acts : List Action) :
    ∀ (p : Proc) (a : Action) (r : Option Bool),
      (a, r) ∈ (run parse acts p).1 → a ∈ acts := by
  induction acts with
  | nil => intro p a r h; simp [run] at h
  | cons b rest ih =>
    intro p a r h
    simp only [run, List.mem_cons, Prod.mk.injEq] at h
    rcases h with ⟨h1, _⟩ | h
    · simp [h1]
    · exact List.mem_cons_of_mem _ (ih _ a r h)

/-- The first call of a flag's function reads the environment once and
initialises the static with what `TfGetenvBool` gives. -/
theorem exec_first (parse : String → Option Bool) (f : Flag) (p : Proc)
    (h : f.cache p = none) :
    (f.action.exec parse p).1 = some (TfGetenvBool parse p.env f.envName false) ∧
    f.cache (f.action.exec parse p).2 = some (TfGetenvBool parse p.env f.envName false) ∧
    (f.action.exec parse p).2.envReads.count f.envName
      = p.envReads.count f.envName + 1 := by
  cases f <;>
    simp only [Flag.cache, Flag.action, Flag.envName, Action.exec, IsEnabledDebugOutput,
      IsEnabledCoreProfile] at h ⊢ <;>
    simp [h]

theorem readsMatchCache_exec (parse : String → Option Bool) (a : Action) (p : Proc)
    (h : ReadsMatchCache p) : ReadsMatchCache (a.exec parse p).2 := by
  intro f
  by_cases ha : a = f.action
  · subst ha
    cases hc : f.cache p with
    | none =>
      obtain ⟨_, h2, h3⟩ := exec_first parse f p hc
      have := h f
      simp [hc] at this
      simp [h2, h3, this]
    | some v =>
      obtain ⟨h1, _, h3⟩ := exec_of_cached parse f v f.action p hc
      have := h f
      simp [hc] at this
      simp [h1, h3, this]
  · obtain ⟨h1, h2⟩ := exec_of_other parse f a p ha
    rw [h1, h2]
    exact h f

theorem readsMatchCache_run (parse : String → Option Bool) (acts : List Action) :
    ∀ p : Proc, ReadsMatchCache p → ReadsMatchCache (run parse acts p).2 := by
  induction acts with
  | nil => intro p h; simpa [run] using h
  | cons a rest ih =>
    intro p h
    simpa [run] using ih _ (readsMatchCache_exec parse a p h)

/-- C2: from process start, for either flag and every sequence of flag calls
and environment changes, every call of the flag's function returns the value
`TfGetenvBool(name, false)` has on the environment as it is at the first call
of that function, and the environment is read at most once for the flag
(exactly once when the function is called at all). -/
theorem C2_cached_once (parse : String → Option Bool) (env : Env) (w : World) (f : Flag)
    (pre post : List Action) (hpre : f.action ∉ pre) :
    let atFirstCall := (run parse pre (Proc.start env w)).2
    let v := TfGetenvBool parse atFirstCall.env f.envName false
    let all := run parse (pre ++ f.action :: post) (Proc.start env w)
    (∀ r, (f.action, r) ∈ all.1 → r = some v) ∧
    (f.action, some v) ∈ all.1 ∧
    all.2.envReads.count f.envName = 1 ∧
    (∀ acts : List Action,
      (run parse acts (Proc.start env w)).2.envReads.count f.envName ≤ 1) := by
  intro atFirstCall v all
  have hstart : f.cache (Proc.start env w) = none := by cases f <;> rfl
  have hcount0 : (Proc.start env w).envReads.count f.envName = 0 := by simp [Proc.start]
  obtain ⟨hc, hr⟩ := run_of_other parse f pre hpre (Proc.start env w)
  rw [hstart] at hc
  rw [hcount0] at hr
  obtain ⟨e1, e2, e3⟩ := exec_first parse f atFirstCall hc
  obtain ⟨_, l2, l3⟩ := run_of_cached parse f v post (f.action.exec parse atFirstCall).2 e2
  have hall : all = ((run parse pre (Proc.start env w)).1 ++
      ((f.action, (f.action.exec parse atFirstCall).1) ::
        (run parse post (f.action.exec parse atFirstCall).2).1),
      (run parse post (f.action.exec parse atFirstCall).2).2) := by
    simp only [all, run_append, run, atFirstCall]
  refine ⟨?_, ?_, ?_, ?_⟩
  · intro r hmem
    rw [hall] at hmem
    simp only [List.mem_append, List.mem_cons, Prod.mk.injEq] at hmem
    rcases hmem with hmem | ⟨_, hmem⟩ | hmem
    · exact absurd (mem_run_fst parse pre _ _ _ hmem) hpre
    · rw [hmem, e1]
    · exact l2 r hmem
  · rw [hall, e1]
    simp
  · rw [hall]
    simp only
    rw [l3, e3, hr]
  · intro acts
    have hinv : ReadsMatchCache (Proc.start env w) := by
      intro g
      cases g <;> simp [Proc.start, Flag.cache]
    have := readsMatchCache_run parse acts (Proc.start env w) hinv f
    rw [this]
    split <;> omega

/-- C2 on a concrete run: the variable is `1` at the first call of
`IsEnabledDebugOutput()` and `0` at the second, and both calls return true. -/
theorem C2_cached_once_witness :
    Flag.debugOutput.action ∉ [Action.IsEnabledCoreProfile] ∧
    (∀ r, (Action.IsEnabledDebugOutput, r) ∈
        (run Example.parse
          [.IsEnabledCoreProfile, .IsEnabledDebugOutput,
           .setenv "GLF_ENABLE_DEBUG_OUTPUT" (some "0"), .IsEnabledDebugOutput]
          (Proc.start Example.envOn Example.world)).1 → r = some true) ∧
    (run Example.parse
        [.IsEnabledCoreProfile, .IsEnabledDebugOutput,
         .setenv "GLF_ENABLE_DEBUG_OUTPUT" (some "0"), .IsEnabledDebugOutput]
        (Proc.start Example.envOn Example.world)).2.envReads.count
      "GLF_ENABLE_DEBUG_OUTPUT" = 1 :=
  have h := C2_cached_once Example.parse Example.envOn Example.world .debugOutput
    [.IsEnabledCoreProfile]
    [.setenv "GLF_ENABLE_DEBUG_OUTPUT" (some "0"), .IsEnabledDebugOutput] (by decide)
  ⟨by decide, h.1, h.2.2.1⟩

/-! ## The handle -/

theorem ctor_disabled (arch : Arch) (parse : String → Option Bool) (glx : GLX)
    (majorVersion minorVersion : Int) (coreProfile directRendering : Bool) (q : Proc)
    (h : (IsEnabledDebugOutput parse q).1 = false) :
    GlfQGLPlatformDebugContext.ctor arch parse glx majorVersion minorVersion
        coreProfile directRendering q
      = ({ _private := none, _coreProfile := coreProfile },
         (IsEnabledDebugOutput parse q).2) := by
  simp [GlfQGLPlatformDebugContext.ctor, h]

theorem ctor_enabled (arch : Arch) (parse : String → Option Bool) (glx : GLX)
    (majorVersion minorVersion : Int) (coreProfile directRendering : Bool) (q : Proc)
    (h : (IsEnabledDebugOutput parse q).1 = true) :
    GlfQGLPlatformDebugContext.ctor arch parse glx majorVersion minorVersion
        coreProfile directRendering q
      = ({ _private := some (PrivateResource.ctor arch glx majorVersion minorVersion
             coreProfile directRendering q.world).1,
           _coreProfile := coreProfile },
         { (IsEnabledDebugOutput parse q).2 with
           world := (PrivateResource.ctor arch glx majorVersion minorVersion
             coreProfile directRendering q.world).2 }) := by
  simp [GlfQGLPlatformDebugContext.ctor, h, IsEnabledDebugOutput_world]

theorem makeCurrent_disabled (parse : String → Option Bool) (glx : GLX)
    (self : GlfQGLPlatformDebugContext) (q : Proc)
    (h : q.isEnabledDebugOutput = some false) : self.makeCurrent parse glx q = q := by
  simp [GlfQGLPlatformDebugContext.makeCurrent, IsEnabledDebugOutput_cached parse q false h]

theorem makeCurrent_enabled (parse : String → Option Bool) (glx : GLX)
    (r : PrivateResource) (coreProfile : Bool) (q : Proc)
    (h : q.isEnabledDebugOutput = some true) :
    GlfQGLPlatformDebugContext.makeCurrent parse glx
        { _private := some r, _coreProfile := coreProfile } q
      = { q with world := r.MakeCurrent glx q.world } := by
  simp [GlfQGLPlatformDebugContext.makeCurrent, IsEnabledDebugOutput_cached parse q true h,
    TF_VERIFY]

theorem MakeCurrent_diags (glx : GLX) (r : PrivateResource) (w : World) :
    (r.MakeCurrent glx w).diags = w.diags := by
  cases r with
  | linux r =>
    simp only [PrivateResource.MakeCurrent, Linux.GlfQGLPlatformDebugContextPrivate.MakeCurrent,
      glXGetCurrentDisplay, glXGetCurrentDrawable, glXMakeCurrent, World.call]
    split <;> rfl
  | darwin r => rfl

/-- The first read of an unset or falsy variable gives false. -/
theorem first_read_off (parse : String → Option Bool) (p : Proc)
    (hfirst : p.isEnabledDebugOutput = none)
    (hoff : p.env "GLF_ENABLE_DEBUG_OUTPUT" = none ∨
      ∃ s, p.env "GLF_ENABLE_DEBUG_OUTPUT" = some s ∧ parse s = some false) :
    (IsEnabledDebugOutput parse p).1 = false := by
  rcases hoff with h | ⟨s, h, hs⟩ <;>
    simp [IsEnabledDebugOutput, hfirst, TfGetenvBool, h, *]

/-- C1: when `GLF_ENABLE_DEBUG_OUTPUT` is unset or falsy at the first read,
`IsEnabledDebugOutput()` returns false; a handle constructed then, or after
that first read and any further flag calls, environment changes and rebinding,
for any parameters and on either platform, has no platform resource and its
construction leaves the world (platform calls, binding, diagnostics) as it
was; and `makeCurrent()` on it, after any further such actions, leaves the
whole process state as it is.  The same holds on Windows, where the handle has
no member. -/
theorem C1_disabled_flag_is_inert (parse : String → Option Bool) (glx : GLX) (arch : Arch)
    (p : Proc) (hfirst : p.isEnabledDebugOutput = none)
    (hoff : p.env "GLF_ENABLE_DEBUG_OUTPUT" = none ∨
      ∃ s, p.env "GLF_ENABLE_DEBUG_OUTPUT" = some s ∧ parse s = some false)
    (majorVersion minorVersion : Int) (coreProfile directRendering : Bool)
    (between later : List Action) :
    (IsEnabledDebugOutput parse p).1 = false ∧
    (∀ q, (q = p ∨ q = (run parse between (IsEnabledDebugOutput parse p).2).2) →
      (let c := GlfQGLPlatformDebugContext.ctor arch parse glx majorVersion minorVersion
          coreProfile directRendering q
       let q2 := (run parse later c.2).2
       c.1._private = none ∧ c.2.world = q.world ∧
       c.1.makeCurrent parse glx q2 = q2) ∧
      (let c := Windows.GlfQGLPlatformDebugContext.ctor parse majorVersion minorVersion
          coreProfile directRendering q
       let q2 := (run parse later c.2).2
       c.2.world = q.world ∧ c.1.makeCurrent q2 = q2)) := by
  have h0 := first_read_off parse p hfirst hoff
  have hset := IsEnabledDebugOutput_sets parse p
  rw [h0] at hset
  refine ⟨h0, ?_⟩
  intro q hq
  have hq1 : (IsEnabledDebugOutput parse q).1 = false := by
    rcases hq with rfl | rfl
    · exact h0
    · have := (run_of_cached parse .debugOutput false between
        (IsEnabledDebugOutput parse p).2 hset).1
      rw [IsEnabledDebugOutput_cached parse _ false this]
  have hq2 : (IsEnabledDebugOutput parse q).2.isEnabledDebugOutput = some false := by
    rw [IsEnabledDebugOutput_sets, hq1]
  have hlater : (run parse later (IsEnabledDebugOutput parse q).2).2.isEnabledDebugOutput
      = some false :=
    (run_of_cached parse .debugOutput false later _ hq2).1
  constructor
  · rw [ctor_disabled arch parse glx majorVersion minorVersion coreProfile directRendering
      q hq1]
    exact ⟨rfl, IsEnabledDebugOutput_world parse q, makeCurrent_disabled parse glx _ _ hlater⟩
  · simp only [Windows.GlfQGLPlatformDebugContext.ctor, hq1,
      Windows.GlfQGLPlatformDebugContext.makeCurrent]
    simp [IsEnabledDebugOutput_world]

/-- C1 at a process whose environment holds `GLF_ENABLE_DEBUG_OUTPUT=0`, on
GLX, with the variable set to `1` between construction and `makeCurrent()`. -/
theorem C1_disabled_flag_is_inert_witness :
    (Proc.start Example.envOff Example.world).isEnabledDebugOutput = none ∧
    (∃ s, (Proc.start Example.envOff Example.world).env "GLF_ENABLE_DEBUG_OUTPUT" = some s ∧
      Example.parse s = some false) ∧
    (GlfQGLPlatformDebugContext.ctor .linux Example.parse
        (Example.glx [7] (some Example.entry) 4) 4 1 false true
        (Proc.start Example.envOff Example.world)).1._private = none ∧
    (GlfQGLPlatformDebugContext.ctor .linux Example.parse
        (Example.glx [7] (some Example.entry) 4) 4 1 false true
        (Proc.start Example.envOff Example.world)).2.world = Example.world :=
  have h := (C1_disabled_flag_is_inert Example.parse (Example.glx [7] (some Example.entry) 4)
    .linux (Proc.start Example.envOff Example.world) rfl
    (Or.inr ⟨"0", by decide, by decide⟩) 4 1 false true []
    [.setenv "GLF_ENABLE_DEBUG_OUTPUT" (some "1")]).2 _ (Or.inl rfl)
  ⟨rfl, ⟨"0", by decide, by decide⟩, h.1.1, h.1.2.1⟩

/-- C10: on the platforms where the handle has members, a handle's `_private`
is non-null exactly when `IsEnabledDebugOutput()` is true at construction,
whatever the platform constructor did; after any further flag calls,
environment changes and rebinding the function still returns that value, so
in `makeCurrent()` the check `TF_VERIFY(_private)` is reached only with a
non-null `_private` and posts no diagnostic; and with the flag enabled
`makeCurrent()` is the platform resource's `MakeCurrent()` on the world as it
is then, whatever context the resource stores. -/
theorem C10_private_tracks_flag (arch : Arch) (parse : String → Option Bool) (glx : GLX)
    (p : Proc) (majorVersion minorVersion : Int) (coreProfile directRendering : Bool)
    (later : List Action) :
    let c := GlfQGLPlatformDebugContext.ctor arch parse glx majorVersion minorVersion
      coreProfile directRendering p
    let flag := (IsEnabledDebugOutput parse p).1
    let q := (run parse later c.2).2
    c.1._private.isSome = flag ∧
    (IsEnabledDebugOutput parse q).1 = flag ∧
    ((IsEnabledDebugOutput parse q).1 = true →
      TF_VERIFY c.1._private.isSome "_private" (IsEnabledDebugOutput parse q).2.world
        = (true, q.world)) ∧
    (c.1.makeCurrent parse glx q).world.diags = q.world.diags ∧
    (flag = true →
      ∃ r, c.1._private = some r ∧
        (c.1.makeCurrent parse glx q).world = r.MakeCurrent glx q.world) := by
  intro c flag q
  have hset := IsEnabledDebugOutput_sets parse p
  cases hflag : (IsEnabledDebugOutput parse p).1 with
  | false =>
    rw [hflag] at hset
    have hc : c = ({ _private := none, _coreProfile := coreProfile },
        (IsEnabledDebugOutput parse p).2) :=
      ctor_disabled arch parse glx majorVersion minorVersion coreProfile directRendering
        p hflag
    have hq : q.isEnabledDebugOutput = some false := by
      simp only [q, hc]
      exact (run_of_cached parse .debugOutput false later _ hset).1
    simp only [flag, hflag]
    refine ⟨by simp [hc], by rw [IsEnabledDebugOutput_cached parse q false hq],
      by simp [IsEnabledDebugOutput_cached parse q false hq], ?_, by simp⟩
    rw [makeCurrent_disabled parse glx _ q hq]
  | true =>
    rw [hflag] at hset
    have hc : c = _ :=
      ctor_enabled arch parse glx majorVersion minorVersion coreProfile directRendering
        p hflag
    have hq : q.isEnabledDebugOutput = some true := by
      simp only [q, hc]
      exact (run_of_cached parse .debugOutput true later _ (by exact hset)).1
    simp only [flag, hflag]
    have hmk := makeCurrent_enabled parse glx
      (PrivateResource.ctor arch glx majorVersion minorVersion coreProfile directRendering
        p.world).1 coreProfile q hq
    refine ⟨by simp [hc], by rw [IsEnabledDebugOutput_cached parse q true hq],
      by simp [hc, TF_VERIFY, IsEnabledDebugOutput_cached parse q true hq], ?_,
      fun _ => ⟨(PrivateResource.ctor arch glx majorVersion minorVersion coreProfile
        directRendering p.world).1, by simp [hc], ?_⟩⟩
    · simp only [hc]
      rw [hmk]
      exact MakeCurrent_diags glx _ _
    · simp only [hc]
      rw [hmk]

/-- C10 at a process with `GLF_ENABLE_DEBUG_OUTPUT=1` on GLX whose
construction finds no configuration: `_private` is non-null, holds a null
context, and `makeCurrent()` is the resource's `MakeCurrent()`. -/
theorem C10_private_tracks_flag_witness :
    (IsEnabledDebugOutput Example.parse (Proc.start Example.envOn Example.world)).1 = true ∧
    ∃ r, (GlfQGLPlatformDebugContext.ctor .linux Example.parse (Example.glx [] none 0)
        4 1 false true (Proc.start Example.envOn Example.world)).1._private = some r ∧
      ((GlfQGLPlatformDebugContext.ctor .linux Example.parse (Example.glx [] none 0)
          4 1 false true (Proc.start Example.envOn Example.world)).1.makeCurrent
        Example.parse (Example.glx [] none 0)
        (run Example.parse []
          (GlfQGLPlatformDebugContext.ctor .linux Example.parse (Example.glx [] none 0)
            4 1 false true (Proc.start Example.envOn Example.world)).2).2).world
        = r.MakeCurrent (Example.glx [] none 0)
          (run Example.parse []
            (GlfQGLPlatformDebugContext.ctor .linux Example.parse (Example.glx [] none 0)
              4 1 false true (Proc.start Example.envOn Example.world)).2).2.world :=
  ⟨by decide,
   (C10_private_tracks_flag .linux Example.parse (Example.glx [] none 0)
     (Proc.start Example.envOn Example.world) 4 1 false true []).2.2.2.2 (by decide)⟩

theorem ctor_coreProfile (arch : Arch) (parse : String → Option Bool) (glx : GLX)
    (majorVersion minorVersion : Int) (coreProfile directRendering : Bool) (p : Proc) :
    (GlfQGLPlatformDebugContext.ctor arch parse glx majorVersion minorVersion
      coreProfile directRendering p).1._coreProfile = coreProfile := by
  cases h : (IsEnabledDebugOutput parse p).1 with
  | false => rw [ctor_disabled _ _ _ _ _ _ _ _ h]
  | true => rw [ctor_enabled _ _ _ _ _ _ _ _ h]

/-- C7: for a handle constructed on Darwin with `coreProfile`, at any later
time, `chooseMacVisual()` calls `GlfqSelectCoreProfileMacVisual()` once and
returns its result when `coreProfile` is true or `IsEnabledCoreProfile()` is
true, and returns null without calling the selector when both are false; so a
non-null result implies that one of the two is true. -/
theorem C7_chooseMacVisual (parse : String → Option Bool) (glx : GLX) (p : Proc)
    (majorVersion minorVersion : Int) (coreProfile directRendering : Bool)
    (later : List Action) :
    let c := GlfQGLPlatformDebugContext.ctor .darwin parse glx majorVersion minorVersion
      coreProfile directRendering p
    let q := (run parse later c.2).2
    let flag := (IsEnabledCoreProfile parse q).1
    let v := c.1.chooseMacVisual parse glx q
    (coreProfile = true ∨ flag = true →
      v.1 = (Darwin.GlfqSelectCoreProfileMacVisual glx q.world).1 ∧
      v.2.world = (Darwin.GlfqSelectCoreProfileMacVisual glx q.world).2 ∧
      v.2.world.calls = q.world.calls ++ [.selectCoreProfileMacVisual]) ∧
    (coreProfile = false ∧ flag = false → v.1 = NULL ∧ v.2.world = q.world) ∧
    (v.1 ≠ NULL → coreProfile = true ∨ flag = true) := by
  intro c q flag v
  have hcore : c.1._coreProfile = coreProfile := ctor_coreProfile _ _ _ _ _ _ _ _
  have key : (coreProfile = false ∧ flag = false → v.1 = NULL ∧ v.2.world = q.world) := by
    rintro ⟨h1, h2⟩
    simp only [v, GlfQGLPlatformDebugContext.chooseMacVisual, hcore, h1]
    simp only [flag] at h2
    simp [h2, IsEnabledCoreProfile_world]
  refine ⟨?_, key, ?_⟩
  · intro h
    simp only [v, GlfQGLPlatformDebugContext.chooseMacVisual, hcore]
    cases hcp : coreProfile with
    | true => simp [Darwin.GlfqSelectCoreProfileMacVisual, World.call]
    | false =>
      have hf : (IsEnabledCoreProfile parse q).1 = true := by
        rcases h with h | h
        · rw [hcp] at h; exact absurd h (by decide)
        · exact h
      simp [hf, Darwin.GlfqSelectCoreProfileMacVisual, World.call, IsEnabledCoreProfile_world]
  · intro hv
    by_contra hcon
    push_neg at hcon
    have h1 : coreProfile = false := by simpa using hcon.1
    have h2 : flag = false := by simpa using hcon.2
    exact hv (key ⟨h1, h2⟩).1

/-- C7 at the four combinations of `coreProfile` and
`GLF_ENABLE_CORE_PROFILE`, with a selector that returns 11. -/
theorem C7_chooseMacVisual_witness :
    ((GlfQGLPlatformDebugContext.ctor .darwin Example.parse (Example.glx [] none 0)
        4 1 true true (Proc.start Example.envCore Example.world)).1.chooseMacVisual
      Example.parse (Example.glx [] none 0)
      (run Example.parse []
        (GlfQGLPlatformDebugContext.ctor .darwin Example.parse (Example.glx [] none 0)
          4 1 true true (Proc.start Example.envCore Example.world)).2).2).1 = 11 ∧
    ((GlfQGLPlatformDebugContext.ctor .darwin Example.parse (Example.glx [] none 0)
        4 1 true true (Proc.start Example.envOff Example.world)).1.chooseMacVisual
      Example.parse (Example.glx [] none 0)
      (run Example.parse []
        (GlfQGLPlatformDebugContext.ctor .darwin Example.parse (Example.glx [] none 0)
          4 1 true true (Proc.start Example.envOff Example.world)).2).2).1 = 11 ∧
    ((GlfQGLPlatformDebugContext.ctor .darwin Example.parse (Example.glx [] none 0)
        4 1 false true (Proc.start Example.envCore Example.world)).1.chooseMacVisual
      Example.parse (Example.glx [] none 0)
      (run Example.parse []
        (GlfQGLPlatformDebugContext.ctor .darwin Example.parse (Example.glx [] none 0)
          4 1 false true (Proc.start Example.envCore Example.world)).2).2).1 = 11 ∧
    ((GlfQGLPlatformDebugContext.ctor .darwin Example.parse (Example.glx [] none 0)
        4 1 false true (Proc.start Example.envOff Example.world)).1.chooseMacVisual
      Example.parse (Example.glx [] none 0)
      (run Example.parse []
        (GlfQGLPlatformDebugContext.ctor .darwin Example.parse (Example.glx [] none 0)
          4 1 false true (Proc.start Example.envOff Example.world)).2).2).1 = NULL :=
  ⟨((C7_chooseMacVisual Example.parse (Example.glx [] none 0)
      (Proc.start Example.envCore Example.world) 4 1 true true []).1 (Or.inl rfl)).1,
   ((C7_chooseMacVisual Example.parse (Example.glx [] none 0)
      (Proc.start Example.envOff Example.world) 4 1 true true []).1 (Or.inl rfl)).1,
   ((C7_chooseMacVisual Example.parse (Example.glx [] none 0)
      (Proc.start Example.envCore Example.world) 4 1 false true []).1
      (Or.inr (by decide))).1,
   ((C7_chooseMacVisual Example.parse (Example.glx [] none 0)
      (Proc.start Example.envOff Example.world) 4 1 false true []).2.1
      ⟨rfl, by decide⟩).1⟩

end Glfq
